/-
  Verification of the astrbot_proactive_reply plugin against its
  natural-language specification.

  Shallow embedding conventions:
  * machine timestamps (`datetime`) are modelled as `Int` — seconds since an
    arbitrary epoch; all datetimes in the plugin are stored and compared at
    whole-second granularity ("%Y-%m-%d %H:%M:%S"), so `Int` is faithful;
  * a stored timestamp string is modelled by the result of parsing it back
    (`Option Int`; `none` = a string `strptime` rejects);
  * Python dicts keyed by session id are modelled as functions
    `String → Option α` (absent key = `none`);
  * JSON values decoded by `json.loads` are modelled by the inductive `JVal`;
    JSON numbers are `ℚ` (both Python `int` and `float` satisfy the
    `isinstance(x, (int, float))` check, and every literal the claims exercise
    is exactly representable);
  * `asyncio.sleep` calls and user notifications are recorded in the result of
    a function instead of performed, so that retry/notification counts are
    observable.
-/
import Mathlib

namespace ProactiveReply

/-! ### JSON values (src/llm/ai_schedule_analyzer.py) -/

/-- A decoded JSON value, as produced by Python's `json.loads`, restricted to
the shapes `parse_schedule_response` inspects. -/
inductive JVal where
  | jnull : JVal
  | jbool : Bool → JVal
  | jnum : ℚ → JVal
  | jstr : String → JVal
deriving DecidableEq, Repr

/-- `dict.get(key, default)` on a decoded JSON object (first binding wins,
matching lookup in a dict built from distinct keys). -/
def jget (data : List (String × JVal)) (key : String) (dflt : JVal) : JVal :=
  match data.find? (fun kv => kv.1 = key) with
  | some kv => kv.2
  | none => dflt

/-- Python's `isinstance(x, (int, float))` together with the numeric value of
`x`: JSON numbers qualify, and so do booleans (`bool` is a subclass of `int`
in Python, `True == 1`, `False == 0`). -/
def pyNumVal : JVal → Option ℚ
  | JVal.jnum q => some q
  | JVal.jbool b => some (if b then 1 else 0)
  | _ => none

/-- Python truthiness of a decoded JSON value. -/
def pyTruthy : JVal → Bool
  | JVal.jnull => false
  | JVal.jbool b => b
  | JVal.jnum q => q ≠ 0
  | JVal.jstr s => s ≠ ""

/-- Whether the value is a Python `str`. -/
def pyIsStr : JVal → Bool
  | JVal.jstr _ => true
  | _ => false

/-- The underlying string of a `jstr` (only used after `pyIsStr`). -/
def jstrVal : JVal → String
  | JVal.jstr s => s
  | _ => ""

/-- Python `str.strip()`: drop whitespace from both ends. -/
def pyStrip (s : String) : String :=
  (((s.data.dropWhile Char.isWhitespace).reverse.dropWhile
      Char.isWhitespace).reverse).asString

/-- Python `int(q)`: truncation toward zero. -/
def pyInt (q : ℚ) : Int :=
  if 0 ≤ q then ⌊q⌋ else -⌊-q⌋

/-- The schedule decision returned by `parse_schedule_response`:
`{"delay_minutes": int, "follow_up_prompt": str}` (after `int()` truncation
and `.strip()`). -/
structure ScheduleDecision where
  delay_minutes : Int
  follow_up_prompt : String
deriving DecidableEq, Repr

/-- `parse_schedule_response` (src/llm/ai_schedule_analyzer.py:72-118).

The argument models the combined result of the regex extraction
`re.search(r"\x7b[^\x7d]+\x7d", …)` and `json.loads`: `none` when the text
contains no parsable JSON object (no regex match, or a `json.JSONDecodeError`,
both of which make the source return `None`); `some data` is the decoded
object. The remaining checks follow the source line by line:
`delay_minutes = data.get("delay_minutes", 0)`,
`follow_up_prompt = data.get("follow_up_prompt", "")`, reject non-numeric or
`<= 0` delay, truncate with `int()`, reject falsy or non-string prompt,
strip the prompt. -/
def parse_schedule_response (extracted : Option (List (String × JVal))) :
    Option ScheduleDecision :=
  match extracted with
  | none => none
  | some data =>
    let delay_minutes := jget data "delay_minutes" (JVal.jnum 0)
    let follow_up_prompt := jget data "follow_up_prompt" (JVal.jstr "")
    match pyNumVal delay_minutes with
    | none => none
    | some q =>
      if q ≤ 0 then none
      else if ¬ pyTruthy follow_up_prompt ∨ ¬ pyIsStr follow_up_prompt then none
      else some ⟨pyInt q, pyStrip (jstrVal follow_up_prompt)⟩

/-- The stamping step of `analyze_for_schedule`
(src/llm/ai_schedule_analyzer.py:190-194): once `parse_schedule_response`
returns a decision, the absolute trigger time is
`datetime.now() + timedelta(minutes=result["delay_minutes"])`. -/
def analyze_for_schedule_stamp (now : Int)
    (extracted : Option (List (String × JVal))) :
    Option (ScheduleDecision × Int) :=
  match parse_schedule_response extracted with
  | none => none
  | some r => some (r, now + 60 * r.delay_minutes)

/-! ### Time-range check (src/utils/time_utils.py) -/

/-- Split a character list at every occurrence of the separator `c`
(Python's `str.split` with a one-character separator; `"a-b"` → `["a","b"]`,
`"ab"` → `["ab"]`, separators at the ends produce empty pieces). `acc` holds
the current piece, reversed. -/
def splitOnCharAux (c : Char) : List Char → List Char → List (List Char)
  | [], acc => [acc.reverse]
  | x :: xs, acc =>
    if x = c then acc.reverse :: splitOnCharAux c xs []
    else splitOnCharAux c xs (x :: acc)

/-- `s.split(c)` for a one-character separator. -/
def splitOnChar (c : Char) (s : String) : List String :=
  (splitOnCharAux c s.data []).map List.asString

/-- The numeric value of a decimal digit. -/
def charDigit? (c : Char) : Option Nat :=
  if '0' ≤ c ∧ c ≤ '9' then some (c.toNat - '0'.toNat) else none

/-- Parse a non-empty all-digit character list. -/
def digitsToNat? : List Char → Option Nat
  | [] => none
  | l =>
    l.foldl
      (fun acc c =>
        match acc, charDigit? c with
        | some n, some d => some (n * 10 + d)
        | _, _ => none)
      (some 0)

/-- Python `int(s)` on the `"HH"`/`"MM"` fields of a time range: surrounding
whitespace tolerated (as `int` tolerates it), `none` models the `ValueError`
on anything that is not a decimal numeral. -/
def pyParseNat (s : String) : Option Nat :=
  digitsToNat? (((s.data.dropWhile Char.isWhitespace).reverse.dropWhile
    Char.isWhitespace).reverse)

/-- Parse one `"HH:MM"` component into minutes-of-day; `none` models the
`ValueError` raised when the split does not give exactly two integer
fields. -/
def parseHM (s : String) : Option Nat :=
  match splitOnChar ':' s with
  | [h, m] =>
    match pyParseNat h, pyParseNat m with
    | some hh, some mm => some (hh * 60 + mm)
    | _, _ => none
  | _ => none

/-- Parse a `"HH:MM-HH:MM"` range into (start, end) minutes-of-day; `none`
models the exceptions `is_in_time_range` catches (wrong number of `-` parts,
or an unparsable field), which make it return `False`. -/
def parseTimeRange (time_range : String) : Option (Nat × Nat) :=
  match splitOnChar '-' time_range with
  | [s, e] =>
    match parseHM s, parseHM e with
    | some sm, some em => some (sm, em)
    | _, _ => none
  | _ => none

/-- `is_in_time_range` (src/utils/time_utils.py:11-41): the current time is
`now.hour * 60 + now.minute` (minute-of-day granularity; seconds ignored),
passed here as explicit hour and minute. A range whose start exceeds its end
crosses midnight: the answer is `now >= start or now <= end`; otherwise
`start <= now <= end`. All parse failures yield `False`. -/
def is_in_time_range (time_range : String) (nowHour nowMin : Nat) : Bool :=
  match parseTimeRange time_range with
  | none => false
  | some (start_minutes, end_minutes) =>
    let current_minutes := nowHour * 60 + nowMin
    if start_minutes > end_minutes then
      decide (current_minutes ≥ start_minutes) ||
        decide (current_minutes ≤ end_minutes)
    else
      decide (start_minutes ≤ current_minutes) &&
        decide (current_minutes ≤ end_minutes)

/-! ### Runtime data store (src/core/runtime_data.py) -/

/-- A Python dict keyed by session id. -/
def SessionMap (α : Type) := String → Option α

/-- `m[k] = v` / `del m[k]` (`v = none`). -/
def SessionMap.set (m : SessionMap α) (k : String) (v : Option α) : SessionMap α :=
  fun k' => if k' = k then v else m k'

/-- The empty dict. -/
def SessionMap.empty : SessionMap α := fun _ => none

/-- An AI ad-hoc schedule task, one element of a
`runtime_data.session_ai_scheduled[session]` list. `fire_time` is the stored
`"%Y-%m-%d %H:%M:%S"` string modelled by its `strptime` parse (`none` = a
string `strptime` rejects); `task_id` may be absent in legacy data.
`created_at` and logging-only fields are omitted. -/
structure AdHocTask where
  task_id : Option String
  fire_time : Option Int
  follow_up_prompt : Option String
deriving DecidableEq

/-- The in-memory fields of `RuntimeDataStore` that the claims touch, plus the
record-keeping maps `to_dict` exports. `session_user_info`,
`ai_last_sent_times`, `last_sent_times` and `session_last_proactive_message`
carry payloads irrelevant to every claim and are modelled as opaque strings.

`session_ai_scheduled` is the dynamic attribute read and written throughout
src/tasks/proactive_task.py; note that `RuntimeDataStore.__init__`
(src/core/runtime_data.py:26-46) never initializes it — in the running
program the attribute does not exist until something else creates it, and the
first access raises `AttributeError`. It is included here so that the task
manager's operations can be expressed; `to_dict` and `load_from_dict` below
faithfully ignore it, exactly as the source does. -/
structure RuntimeData where
  session_user_info : SessionMap String
  ai_last_sent_times : SessionMap String
  last_sent_times : SessionMap String
  session_next_fire_times : SessionMap Int
  session_sleep_remaining : SessionMap Int
  timing_config_signature : String
  session_last_proactive_message : SessionMap String
  session_unreplied_count : SessionMap Int
  session_consecutive_failures : SessionMap Nat
  session_ai_scheduled : SessionMap (List AdHocTask)

/-- A fresh `RuntimeDataStore` as built by `__init__`
(src/core/runtime_data.py:26-46): every map empty, empty signature.
(`session_ai_scheduled` is represented as the empty map; in Python the
attribute is simply missing.) -/
def RuntimeData.fresh : RuntimeData where
  session_user_info := SessionMap.empty
  ai_last_sent_times := SessionMap.empty
  last_sent_times := SessionMap.empty
  session_next_fire_times := SessionMap.empty
  session_sleep_remaining := SessionMap.empty
  timing_config_signature := ""
  session_last_proactive_message := SessionMap.empty
  session_unreplied_count := SessionMap.empty
  session_consecutive_failures := SessionMap.empty
  session_ai_scheduled := SessionMap.empty

/-- The dict written by `RuntimeDataStore.to_dict`
(src/core/runtime_data.py:73-89): exactly these nine keys, one field per
`"key": value` entry of the source. There is no `session_ai_scheduled`
key. -/
structure PersistBlob where
  session_user_info : SessionMap String
  ai_last_sent_times : SessionMap String
  last_sent_times : SessionMap String
  session_next_fire_times : SessionMap Int
  session_sleep_remaining : SessionMap Int
  timing_config_signature : String
  session_last_proactive_message : SessionMap String
  session_unreplied_count : SessionMap Int
  session_consecutive_failures : SessionMap Nat

/-- `RuntimeDataStore.to_dict` (src/core/runtime_data.py:73-89). -/
def to_dict (d : RuntimeData) : PersistBlob where
  session_user_info := d.session_user_info
  ai_last_sent_times := d.ai_last_sent_times
  last_sent_times := d.last_sent_times
  session_next_fire_times := d.session_next_fire_times
  session_sleep_remaining := d.session_sleep_remaining
  timing_config_signature := d.timing_config_signature
  session_last_proactive_message := d.session_last_proactive_message
  session_unreplied_count := d.session_unreplied_count
  session_consecutive_failures := d.session_consecutive_failures

/-- `RuntimeDataStore.load_from_dict` (src/core/runtime_data.py:48-71) applied
to a blob produced by `to_dict` (such a blob carries all nine keys, so every
`if key in data` branch fires). The source has no branch for
`session_ai_scheduled`, so that attribute of the receiving store is left as
it was. -/
def load_from_dict (d : RuntimeData) (data : PersistBlob) : RuntimeData where
  session_user_info := data.session_user_info
  ai_last_sent_times := data.ai_last_sent_times
  last_sent_times := data.last_sent_times
  session_next_fire_times := data.session_next_fire_times
  session_sleep_remaining := data.session_sleep_remaining
  timing_config_signature := data.timing_config_signature
  session_last_proactive_message := data.session_last_proactive_message
  session_unreplied_count := data.session_unreplied_count
  session_consecutive_failures := data.session_consecutive_failures
  session_ai_scheduled := d.session_ai_scheduled

/-- In-memory store paired with the durable copy.
`durable = some b` means the persistent JSON file currently holds blob `b`
(`none` = never saved). -/
structure SysState where
  mem : RuntimeData
  durable : Option PersistBlob

/-- `PersistenceManager.save_persistent_data`
(src/core/persistence_manager.py:173-216): snapshot the store into the
durable file. -/
def save_persistent_data (st : SysState) : SysState :=
  { st with durable := some (to_dict st.mem) }

/-! ### Timing configuration (src/tasks/proactive_task.py) -/

/-- The configuration slice the task manager reads: the seven timing keys of
`proactive_reply` (with the source's defaults already applied), the parsed
target-session list (`get_target_sessions`), and the two `time_awareness`
wake keys. -/
structure TimingConfig where
  timing_mode : String
  interval_minutes : Nat
  random_min_minutes : Nat
  random_max_minutes : Nat
  random_delay_enabled : Bool
  min_random_minutes : Nat
  max_random_minutes : Nat
  sessions : List String
  send_on_wake_enabled : Bool
  wake_send_mode : String

/-- Python `str` of a bool, as interpolated into the signature f-string. -/
def pyStrBool (b : Bool) : String := if b then "True" else "False"

/-- `_get_timing_config_signature` (src/tasks/proactive_task.py:178-196). -/
def get_timing_config_signature (cfg : TimingConfig) : String :=
  cfg.timing_mode ++ "|" ++ toString cfg.interval_minutes ++ "|" ++
    toString cfg.random_min_minutes ++ "|" ++ toString cfg.random_max_minutes ++
    "|" ++ pyStrBool cfg.random_delay_enabled ++ "|" ++
    toString cfg.min_random_minutes ++ "|" ++ toString cfg.max_random_minutes

/-- `get_session_target_interval` (src/tasks/proactive_task.py:718-743).
`rand lo hi` models one draw of `random.randint(lo, hi)`. The session
argument of the source is unused by its body and dropped here. -/
def get_session_target_interval (cfg : TimingConfig)
    (rand : Nat → Nat → Nat) : Nat :=
  if cfg.timing_mode ≠ "random_interval" then
    let interval := cfg.interval_minutes
    if cfg.random_delay_enabled then
      interval + rand cfg.min_random_minutes cfg.max_random_minutes
    else interval
  else rand cfg.random_min_minutes cfg.random_max_minutes

/-- `calculate_next_fire_time` (src/tasks/proactive_task.py:84-94):
`datetime.now() + timedelta(minutes=interval)`, in seconds. -/
def calculate_next_fire_time (cfg : TimingConfig) (rand : Nat → Nat → Nat)
    (now : Int) : Int :=
  now + 60 * (get_session_target_interval cfg rand : Int)

/-- `set_session_next_fire_time` (src/tasks/proactive_task.py:70-82): store
the formatted time (which always parses back) and flush to the durable
store. A persistence manager is assumed attached, as it is in the plugin's
wiring. -/
def set_session_next_fire_time (st : SysState) (session : String)
    (fire_time : Int) : SysState :=
  save_persistent_data
    { st with mem :=
      { st.mem with session_next_fire_times :=
          st.mem.session_next_fire_times.set session (some fire_time) } }

/-- `refresh_session_timer` (src/tasks/proactive_task.py:96-137): no-op for
sessions outside the target list; otherwise the next fire time becomes the
regular-interval time, lowered to the earliest parseable ad-hoc task time
when that is strictly earlier. -/
def refresh_session_timer (cfg : TimingConfig) (rand : Nat → Nat → Nat)
    (now : Int) (st : SysState) (session : String) : SysState :=
  if session ∉ cfg.sessions then st
  else
    let regular_next_fire := calculate_next_fire_time cfg rand now
    let ai_tasks := (st.mem.session_ai_scheduled session).getD []
    let valid_times := ai_tasks.filterMap (fun t => t.fire_time)
    let next_fire :=
      match valid_times.min? with
      | none => regular_next_fire
      | some min_ai_time =>
        if min_ai_time < regular_next_fire then min_ai_time
        else regular_next_fire
    set_session_next_fire_time st session next_fire

/-- `clear_all_session_timers` (src/tasks/proactive_task.py:166-176): wipe
both timer maps, then flush. -/
def clear_all_session_timers (st : SysState) : SysState :=
  save_persistent_data
    { st with mem :=
      { st.mem with
        session_next_fire_times := SessionMap.empty
        session_sleep_remaining := SessionMap.empty } }

/-- Result of `_check_and_handle_config_change`, instrumented with the number
of `clear_all_session_timers` invocations it performed. -/
structure ConfigCheckResult where
  st : SysState
  clearCalls : Nat

/-- `_check_and_handle_config_change` (src/tasks/proactive_task.py:198-224).
First-ever run (`not last_signature`, i.e. empty stored signature): record
the signature and flush, no clearing. Changed signature: clear all timers
(which flushes — before the signature is updated), then update the in-memory
signature; the source performs no further save in this branch. Unchanged:
nothing. -/
def check_and_handle_config_change (cfg : TimingConfig)
    (st : SysState) : ConfigCheckResult :=
  let current_signature := get_timing_config_signature cfg
  let last_signature := st.mem.timing_config_signature
  if last_signature = "" then
    let st1 :=
      { st with mem :=
        { st.mem with timing_config_signature := current_signature } }
    ⟨save_persistent_data st1, 0⟩
  else if current_signature ≠ last_signature then
    let st1 := clear_all_session_timers st
    let st2 :=
      { st1 with mem :=
        { st1.mem with timing_config_signature := current_signature } }
    ⟨st2, 1⟩
  else ⟨st, 0⟩

/-! ### Send with retry (src/tasks/proactive_task.py:594-671) -/

/-- `_MAX_RETRIES` (src/tasks/proactive_task.py:594). -/
def MAX_RETRIES : Nat := 3

/-- `_RETRY_INTERVAL_SECONDS` (src/tasks/proactive_task.py:595). -/
def RETRY_INTERVAL_SECONDS : Nat := 60

/-- Observable outcome of one `_send_with_retry` call: whether it returned
success, how many attempts (`send_proactive_message` calls) it made, the
`asyncio.sleep` durations it performed between attempts, how many
`_notify_user_send_failure` notices it sent, and the value of
`session_consecutive_failures[session]` afterwards (`none` = key popped). -/
structure RetryRun where
  success : Bool
  attempts : Nat
  sleeps : List Nat
  notices : Nat
  failuresAfter : Option Nat
deriving DecidableEq, Repr

/-- The `for attempt in range(1, _MAX_RETRIES + 1)` loop of `_send_with_retry`
(src/tasks/proactive_task.py:613-633). `outcome k = true` means the `k`-th
`send_proactive_message` call returns (success); `false` means it raises.
`fuel` is the number of attempts still allowed (`_MAX_RETRIES - attempt + 1`).
After a failure with `attempt < _MAX_RETRIES` the loop sleeps
`_RETRY_INTERVAL_SECONDS` and retries. Returns (succeeded, attempts made,
sleeps performed). The loop body contains no check of `should_terminate`. -/
def retry_attempts (outcome : Nat → Bool) (attempt : Nat) :
    Nat → Bool × Nat × List Nat
  | 0 => (false, 0, [])
  | fuel + 1 =>
    if outcome attempt then (true, 1, [])
    else if fuel = 0 then (false, 1, [])
    else
      let r := retry_attempts outcome (attempt + 1) fuel
      (r.1, r.2.1 + 1, RETRY_INTERVAL_SECONDS :: r.2.2)

/-- `_send_with_retry` (src/tasks/proactive_task.py:597-640) for one session,
abstracted over the collaborator's behaviour. `prevFailures` is
`session_consecutive_failures[session]` on entry. `termFlag k` is the value
`should_terminate()` would report after the `k`-th attempt; it is a parameter
of the run's environment, and — exactly as in the source, whose loop never
calls `should_terminate` — it does not influence the execution. On success
the failure key is popped (line 623); after exhausting all retries the
counter becomes `get(session, 0) + 1` and exactly one notice is sent
(lines 636-639). -/
def send_with_retry (outcome : Nat → Bool) (termFlag : Nat → Bool)
    (prevFailures : Option Nat) : RetryRun :=
  let r := retry_attempts outcome 1 MAX_RETRIES
  if r.1 then
    { success := true, attempts := r.2.1, sleeps := r.2.2, notices := 0
      failuresAfter := none }
  else
    { success := false, attempts := r.2.1, sleeps := r.2.2, notices := 1
      failuresAfter := some (prevFailures.getD 0 + 1) }

/-! ### Applying and firing ad-hoc schedules (src/tasks/proactive_task.py) -/

/-- `apply_ai_schedule` (src/tasks/proactive_task.py:515-558): fill in a
missing `task_id` (`newId` models the fresh `uuid.uuid4()` draw), append the
task to the session's list (absent key = start from the empty list), flush,
then refresh the session's timer so the earliest task is scheduled. The
legacy branch converting an old single-dict entry to a list is not modelled:
the map stores lists only. -/
def apply_ai_schedule (cfg : TimingConfig) (rand : Nat → Nat → Nat)
    (now : Int) (newId : String) (st : SysState) (session : String)
    (schedule_info : AdHocTask) : SysState :=
  let info :=
    match schedule_info.task_id with
    | some _ => schedule_info
    | none => { schedule_info with task_id := some newId }
  let current := (st.mem.session_ai_scheduled session).getD []
  let st1 := save_persistent_data
    { st with mem :=
      { st.mem with session_ai_scheduled :=
          st.mem.session_ai_scheduled.set session (some (current ++ [info])) } }
  refresh_session_timer cfg rand now st1 session

/-- Stable insertion of a (parsed fire time, task) pair into a list sorted by
fire time — the new pair goes after existing pairs with the same key, as in
Python's stable `list.sort(key=lambda x: x[0])`. -/
def insertByTime (p : Int × AdHocTask) :
    List (Int × AdHocTask) → List (Int × AdHocTask)
  | [] => [p]
  | q :: rest => if p.1 < q.1 then p :: q :: rest else q :: insertByTime p rest

/-- `sorted_tasks.sort(key=lambda x: x[0])`
(src/tasks/proactive_task.py:434-442): keep the tasks whose stored
`fire_time` parses, paired with the parsed time, sorted by time (stable). -/
def sorted_due_tasks (tasks : List AdHocTask) : List (Int × AdHocTask) :=
  (tasks.filterMap (fun t => t.fire_time.map (fun ft => (ft, t)))).foldl
    (fun acc p => insertByTime p acc) []

/-- The `for t, task in sorted_tasks: if t <= now: due_ai_task = task; break`
scan (src/tasks/proactive_task.py:444-448). -/
def find_due_ai_task (tasks : List AdHocTask) (now : Int) : Option AdHocTask :=
  ((sorted_due_tasks tasks).find? (fun p => decide (p.1 ≤ now))).map (·.2)

/-- The removal performed on success
(src/tasks/proactive_task.py:474-494): when the due task has a `task_id`,
drop every task with that id; legacy tasks without an id are removed by
first-match equality. -/
def remove_due_task (tasks : List AdHocTask) (due : AdHocTask) :
    List AdHocTask :=
  match due.task_id with
  | some id => tasks.filter (fun t => ¬ t.task_id = some id)
  | none => tasks.erase due

/-- The per-session body of `process_due_sessions` in normal (non-sleep) mode
(src/tasks/proactive_task.py:424-510), for a session whose stored next fire
time is due, abstracted over the send collaborator's behaviour. The
collaborator is assumed to produce no nested schedule (`schedule_info` is
`None`), as in every claim's scenario. On success: remove the due ad-hoc
task (if one fired), flush, and refresh the timer. On failure
(lines 505-510): reset the next fire time to a freshly computed
regular-interval time; the ad-hoc list is untouched. -/
def process_due_session (cfg : TimingConfig) (rand : Nat → Nat → Nat)
    (now : Int) (outcome : Nat → Bool) (termFlag : Nat → Bool)
    (st : SysState) (session : String) : SysState :=
  match st.mem.session_next_fire_times session with
  | none => st
  | some fire_time =>
    if fire_time ≤ now then
      let ai_tasks := (st.mem.session_ai_scheduled session).getD []
      let due_ai_task := find_due_ai_task ai_tasks now
      let run := send_with_retry outcome termFlag
        (st.mem.session_consecutive_failures session)
      let failures1 :=
        st.mem.session_consecutive_failures.set session run.failuresAfter
      let st1 :=
        { st with mem :=
          { st.mem with session_consecutive_failures := failures1 } }
      if run.success then
        let st2 :=
          match due_ai_task with
          | some due =>
            let sched1 := st1.mem.session_ai_scheduled.set session
              (some (remove_due_task ai_tasks due))
            save_persistent_data
              { st1 with mem :=
                { st1.mem with session_ai_scheduled := sched1 } }
          | none => st1
        refresh_session_timer cfg rand now st2 session
      else
        set_session_next_fire_time st1 session
          (calculate_next_fire_time cfg rand now)
    else st

/-! ### Sleep exit (src/tasks/proactive_task.py:276-319) -/

/-- The per-session body of `handle_exit_sleep`'s loop
(src/tasks/proactive_task.py:289-314). Mode 1 (`send_on_wake_enabled`
false): refresh the timer. Mode 2 (`wake_send_mode == "immediate"`): keep
the timer. Mode 3 (anything else, i.e. "delayed"): restore
`now + remaining` when a positive remaining value was recorded, otherwise
recompute afresh. -/
def handle_exit_sleep_session (cfg : TimingConfig) (rand : Nat → Nat → Nat)
    (now : Int) (st : SysState) (session : String) : SysState :=
  if ¬ cfg.send_on_wake_enabled then
    refresh_session_timer cfg rand now st session
  else if cfg.wake_send_mode = "immediate" then st
  else
    match st.mem.session_sleep_remaining session with
    | some remaining =>
      if 0 < remaining then
        set_session_next_fire_time st session (now + remaining)
      else
        set_session_next_fire_time st session
          (calculate_next_fire_time cfg rand now)
    | none =>
      set_session_next_fire_time st session
        (calculate_next_fire_time cfg rand now)

/-- `handle_exit_sleep` (src/tasks/proactive_task.py:276-319): process every
target session, then clear the whole `session_sleep_remaining` map and
flush — regardless of mode. -/
def handle_exit_sleep (cfg : TimingConfig) (rand : Nat → Nat → Nat)
    (now : Int) (st : SysState) : SysState :=
  let st1 := cfg.sessions.foldl (handle_exit_sleep_session cfg rand now) st
  save_persistent_data
    { st1 with mem :=
      { st1.mem with session_sleep_remaining := SessionMap.empty } }

/-- The next fire time the "delayed" wake branch of `handle_exit_sleep`
assigns, as a function of the recorded remaining value
(src/tasks/proactive_task.py:300-314). -/
def delayed_wake_fire (cfg : TimingConfig) (rand : Nat → Nat → Nat)
    (now : Int) (rem : Option Int) : Int :=
  match rem with
  | some r => if 0 < r then now + r else calculate_next_fire_time cfg rand now
  | none => calculate_next_fire_time cfg rand now

/-! ### Concrete instances used by counterexamples and witnesses -/

/-- A session id in the plugin's `platform:type:id` format. -/
def exampleSession : String := "aiocqhttp:FriendMessage:12345"

/-- The plugin's default timing configuration with one target session. -/
def exampleCfg : TimingConfig where
  timing_mode := "fixed_interval"
  interval_minutes := 600
  random_min_minutes := 600
  random_max_minutes := 1200
  random_delay_enabled := false
  min_random_minutes := 0
  max_random_minutes := 30
  sessions := [exampleSession]
  send_on_wake_enabled := false
  wake_send_mode := "immediate"

/-- A deterministic stand-in for `random.randint` (returns the lower bound;
unused under `exampleCfg`, whose random features are off). -/
def exampleRand : Nat → Nat → Nat := fun lo _ => lo

/-- A system state that has never been saved, holding a fresh store. -/
def initialState : SysState := { mem := RuntimeData.fresh, durable := none }

/-- An ad-hoc task as `analyze_for_schedule` emits it, before
`apply_ai_schedule` fills the id: fire time 900 s, a follow-up prompt. -/
def exampleTask : AdHocTask where
  task_id := none
  fire_time := some 900
  follow_up_prompt := some "ask how the meeting went"

/-- `exampleCfg` with the wake-on-exit feature on, in "delayed" mode. -/
def exampleCfgDelayed : TimingConfig :=
  { exampleCfg with send_on_wake_enabled := true, wake_send_mode := "delayed" }

/-- A pending ad-hoc task carrying an id, due at 90 s. -/
def dueTask : AdHocTask where
  task_id := some "t1"
  fire_time := some 90
  follow_up_prompt := some "follow up on the promise"

/-- A state in which `exampleSession`'s stored next fire time (100 s) is due
at `now = 100` and `dueTask` is pending. -/
def dueState : SysState where
  mem :=
    { RuntimeData.fresh with
      session_next_fire_times := SessionMap.empty.set exampleSession (some 100)
      session_ai_scheduled := SessionMap.empty.set exampleSession
        (some [dueTask]) }
  durable := none

/-- A never-saved state whose stored timing signature is `"old"`. -/
def oldSigState : SysState where
  mem := { RuntimeData.fresh with timing_config_signature := "old" }
  durable := none

/-- A never-saved state whose stored timing signature matches
`exampleCfg`. -/
def matchSigState : SysState where
  mem :=
    { RuntimeData.fresh with
      timing_config_signature := get_timing_config_signature exampleCfg }
  durable := none

/-- A state in which `exampleSession` entered sleep with 120 s remaining. -/
def sleptState : SysState where
  mem :=
    { RuntimeData.fresh with
      session_sleep_remaining := SessionMap.empty.set exampleSession
        (some 120) }
  durable := none

/-! ### Helper lemmas -/

theorem SessionMap.get_set_self (m : SessionMap α) (k : String) (v : Option α) :
    m.set k v k = v := by
  simp [SessionMap.set]

theorem SessionMap.get_set_ne (m : SessionMap α) (k k' : String) (v : Option α)
    (h : k' ≠ k) : m.set k v k' = m k' := by
  simp [SessionMap.set, h]

theorem set_fire_ai (st : SysState) (s : String) (t : Int) :
    (set_session_next_fire_time st s t).mem.session_ai_scheduled
      = st.mem.session_ai_scheduled := rfl

theorem set_fire_sleep (st : SysState) (s : String) (t : Int) :
    (set_session_next_fire_time st s t).mem.session_sleep_remaining
      = st.mem.session_sleep_remaining := rfl

theorem set_fire_self (st : SysState) (s : String) (t : Int) :
    (set_session_next_fire_time st s t).mem.session_next_fire_times s
      = some t :=
  SessionMap.get_set_self _ _ _

theorem set_fire_other (st : SysState) (s s' : String) (t : Int)
    (h : s' ≠ s) :
    (set_session_next_fire_time st s t).mem.session_next_fire_times s'
      = st.mem.session_next_fire_times s' :=
  SessionMap.get_set_ne _ _ _ _ h

theorem refresh_ai (cfg : TimingConfig) (rand : Nat → Nat → Nat) (now : Int)
    (st : SysState) (s : String) :
    (refresh_session_timer cfg rand now st s).mem.session_ai_scheduled
      = st.mem.session_ai_scheduled := by
  unfold refresh_session_timer
  split <;> rfl

theorem refresh_sleep (cfg : TimingConfig) (rand : Nat → Nat → Nat) (now : Int)
    (st : SysState) (s : String) :
    (refresh_session_timer cfg rand now st s).mem.session_sleep_remaining
      = st.mem.session_sleep_remaining := by
  unfold refresh_session_timer
  split <;> rfl

theorem refresh_fire_other (cfg : TimingConfig) (rand : Nat → Nat → Nat)
    (now : Int) (st : SysState) (s s' : String) (h : s' ≠ s) :
    (refresh_session_timer cfg rand now st s).mem.session_next_fire_times s'
      = st.mem.session_next_fire_times s' := by
  unfold refresh_session_timer
  split
  · rfl
  · exact set_fire_other _ _ _ _ h

theorem foldl_min_acc (l : List Int) :
    ∀ a b : Int, l.foldl min (min a b) = min a (l.foldl min b) := by
  induction l with
  | nil => intro a b; rfl
  | cons c l ih =>
    intro a b
    simp only [List.foldl_cons]
    rw [min_assoc, ih]

theorem min?_ite_eq_foldl (R : Int) (l : List Int) :
    (match l.min? with
     | none => R
     | some m => if m < R then m else R) = l.foldl min R := by
  cases l with
  | nil => rfl
  | cons a as =>
    have h1 : (a :: as).min? = some (as.foldl min a) := rfl
    rw [h1]
    simp only [List.foldl_cons]
    rw [foldl_min_acc as R a]
    rcases lt_or_le (as.foldl min a) R with h | h
    · rw [if_pos h, min_eq_right (le_of_lt h)]
    · rw [if_neg (not_lt.mpr h), min_eq_left h]

theorem refresh_fire_self (cfg : TimingConfig) (rand : Nat → Nat → Nat)
    (now : Int) (st : SysState) (s : String) (h : s ∈ cfg.sessions) :
    (refresh_session_timer cfg rand now st s).mem.session_next_fire_times s
      = some ((((st.mem.session_ai_scheduled s).getD []).filterMap
          (fun t => t.fire_time)).foldl min
            (calculate_next_fire_time cfg rand now)) := by
  unfold refresh_session_timer
  rw [if_neg (fun hc => hc h)]
  rw [set_fire_self]
  rw [min?_ite_eq_foldl]

/-! ### Claim theorems -/

/-- C6: `is_in_time_range` parses a `"HH:MM-HH:MM"` range; whenever
start > end the range crosses midnight and the result is true exactly when
now ≥ start or now ≤ end, at minute-of-day granularity; in particular for
`"22:00-8:00"` it is true at 23:00 and at 06:00 and false at 12:00. -/
theorem C6_cross_midnight_rule (r : String) (sm em nh nm : Nat)
    (hp : parseTimeRange r = some (sm, em)) (hcross : em < sm) :
    (is_in_time_range r nh nm = true ↔
      sm ≤ nh * 60 + nm ∨ nh * 60 + nm ≤ em)
    ∧ is_in_time_range "22:00-8:00" 23 0 = true
    ∧ is_in_time_range "22:00-8:00" 6 0 = true
    ∧ is_in_time_range "22:00-8:00" 12 0 = false := by
  refine ⟨?_, by decide, by decide, by decide⟩
  unfold is_in_time_range
  rw [hp]
  simp [gt_iff_lt, hcross, ge_iff_le]

/-- C6 witness: the cross-midnight rule applied to the range
`"22:00-8:00"` (start 1320, end 480) at 23:00. -/
theorem C6_cross_midnight_rule_witness :
    parseTimeRange "22:00-8:00" = some (1320, 480) ∧ 480 < 1320
    ∧ is_in_time_range "22:00-8:00" 23 0 = true :=
  ⟨by decide, by decide,
   (C6_cross_midnight_rule "22:00-8:00" 1320 480 23 0 (by decide)
     (by decide)).2.1⟩

/-- C8: `parse_schedule_response` returns "no schedule" (`None`) when the
text contains no parsable JSON object, when the JSON's `delay_minutes` is
not positive, or when `follow_up_prompt` is missing or empty; in particular
both `\x7b"delay_minutes": 0, "follow_up_prompt": "x"\x7d` and
`\x7b"delay_minutes": 15\x7d` (missing prompt) yield `None`. -/
theorem C8_parse_rejections :
    parse_schedule_response none = none
    ∧ (∀ (data : List (String × JVal)) (q : ℚ),
        pyNumVal (jget data "delay_minutes" (JVal.jnum 0)) = some q →
        q ≤ 0 → parse_schedule_response (some data) = none)
    ∧ (∀ data : List (String × JVal),
        jget data "follow_up_prompt" (JVal.jstr "") = JVal.jstr "" →
        parse_schedule_response (some data) = none)
    ∧ parse_schedule_response
        (some [("delay_minutes", JVal.jnum 0),
               ("follow_up_prompt", JVal.jstr "x")]) = none
    ∧ parse_schedule_response (some [("delay_minutes", JVal.jnum 15)])
        = none := by
  refine ⟨rfl, ?_, ?_, by decide, by decide⟩
  · intro data q hq hle
    simp only [parse_schedule_response, hq]
    simp [hle]
  · intro data hp
    simp only [parse_schedule_response, hp]
    cases hq : pyNumVal (jget data "delay_minutes" (JVal.jnum 0)) with
    | none => simp
    | some q =>
      by_cases h : q ≤ 0
      · simp [h]
      · simp [h, pyTruthy]

/-- C8 witness: a negative `delay_minutes` is rejected. -/
theorem C8_parse_rejections_witness :
    pyNumVal (jget [("delay_minutes", JVal.jnum (-3))] "delay_minutes"
        (JVal.jnum 0)) = some (-3)
    ∧ (-3 : ℚ) ≤ 0
    ∧ parse_schedule_response (some [("delay_minutes", JVal.jnum (-3))])
        = none :=
  ⟨by decide, by norm_num,
   C8_parse_rejections.2.1 [("delay_minutes", JVal.jnum (-3))] (-3)
     (by decide) (by norm_num)⟩

/-- C10: `parse_schedule_response` accepts any numeric `delay_minutes`
strictly greater than 0 and returns its integer truncation; consequently a
fractional value in (0,1) yields a schedule whose `delay_minutes` is 0, and
`analyze_for_schedule` stamps the task with a fire time equal to the current
time plus 0 minutes. -/
theorem C10_fractional_delay :
    (∀ (q : ℚ) (s : String), 0 < q → s ≠ "" →
        parse_schedule_response
          (some [("delay_minutes", JVal.jnum q),
                 ("follow_up_prompt", JVal.jstr s)])
          = some ⟨pyInt q, pyStrip s⟩)
    ∧ (∀ (q : ℚ) (s : String) (now : Int), 0 < q → q < 1 → s ≠ "" →
        analyze_for_schedule_stamp now
          (some [("delay_minutes", JVal.jnum q),
                 ("follow_up_prompt", JVal.jstr s)])
          = some (⟨0, pyStrip s⟩, now)) := by
  have hgen : ∀ (q : ℚ) (s : String), 0 < q → s ≠ "" →
      parse_schedule_response
        (some [("delay_minutes", JVal.jnum q),
               ("follow_up_prompt", JVal.jstr s)])
        = some ⟨pyInt q, pyStrip s⟩ := by
    intro q s hq hs
    have hle : ¬ q ≤ 0 := not_le.mpr hq
    simp [parse_schedule_response, jget, pyNumVal, pyTruthy, pyIsStr,
      jstrVal, hle, hs]
  refine ⟨hgen, ?_⟩
  intro q s now h0 h1 hs
  have hfloor : pyInt q = 0 := by
    unfold pyInt
    rw [if_pos (le_of_lt h0)]
    exact Int.floor_eq_zero_iff.mpr (Set.mem_Ico.mpr ⟨le_of_lt h0, h1⟩)
  simp only [analyze_for_schedule_stamp, hgen q s h0 hs, hfloor]
  simp

/-- C10 witness: `delay_minutes = 1/2` is accepted, truncated to 0, and the
stamped fire time equals the current time. -/
theorem C10_fractional_delay_witness :
    (0 : ℚ) < 1/2 ∧ (1/2 : ℚ) < 1 ∧ "ask" ≠ ""
    ∧ analyze_for_schedule_stamp 1000
        (some [("delay_minutes", JVal.jnum (1/2)),
               ("follow_up_prompt", JVal.jstr "ask")])
        = some (⟨0, pyStrip "ask"⟩, 1000) :=
  ⟨by norm_num, by norm_num, by decide,
   C10_fractional_delay.2 (1/2) "ask" 1000 (by norm_num) (by norm_num)
     (by decide)⟩

/-- C3: a collaborator that always fails causes exactly 3 attempts with a
fixed 60-second wait between consecutive attempts, one failure notice, the
consecutive-failure counter incremented by exactly 1, and a failure result;
a collaborator that succeeds on the 2nd call causes exactly 2 attempts, one
60-second wait, no notice, and the counter reset to 0 (the key is popped, so
its read value is 0). -/
theorem C3_retry_policy (termFlag : Nat → Bool) (prev : Option Nat) :
    send_with_retry (fun _ => false) termFlag prev
      = { success := false, attempts := 3, sleeps := [60, 60], notices := 1,
          failuresAfter := some (prev.getD 0 + 1) }
    ∧ send_with_retry (fun k => k == 2) termFlag prev
      = { success := true, attempts := 2, sleeps := [60], notices := 0,
          failuresAfter := none }
    ∧ (send_with_retry (fun k => k == 2) termFlag prev).failuresAfter.getD 0
        = 0 :=
  ⟨rfl, rfl, rfl⟩

/-- C9 counterexample: with the termination flag set from the moment the
first attempt has failed (`termFlag k` true for every `k ≥ 1`) and a
collaborator that always fails, the retry loop still performs all 3
attempts — the 2nd and 3rd attempts are not abandoned, because the source's
loop never consults `should_terminate`. -/
theorem C9_counterexample :
    (send_with_retry (fun _ => false) (fun k => decide (1 ≤ k))
      none).attempts = 3 := rfl

/-- C9 (amended): the retry loop does not observe the termination flag
between attempts — the run is identical for every flag timeline, and when
every attempt fails the loop performs all 3 attempts regardless of the
flag. -/
theorem C9_amended (outcome f g : Nat → Bool) (prev : Option Nat) :
    send_with_retry outcome f prev = send_with_retry outcome g prev
    ∧ (send_with_retry (fun _ => false) f prev).attempts = 3 :=
  ⟨rfl, rfl⟩

/-- C1: the durable blob written by `to_dict` has no `session_ai_scheduled`
entry, so the save/load round trip loses every ad-hoc task: loading any
saved blob leaves the receiving store's `session_ai_scheduled` untouched,
and concretely, after `apply_ai_schedule` appends a task and persists, the
in-memory list holds the task while reloading the persisted blob into a
fresh store yields nothing for the session. -/
theorem C1_persistence_drops_ai_schedule :
    (∀ (d fresh : RuntimeData) (sess : String),
        (load_from_dict fresh (to_dict d)).session_ai_scheduled sess
          = fresh.session_ai_scheduled sess)
    ∧ (apply_ai_schedule exampleCfg exampleRand 0 "task-1" initialState
        exampleSession exampleTask).mem.session_ai_scheduled exampleSession
        = some [{ exampleTask with task_id := some "task-1" }]
    ∧ (load_from_dict RuntimeData.fresh
        (to_dict (apply_ai_schedule exampleCfg exampleRand 0 "task-1"
          initialState exampleSession exampleTask).mem)).session_ai_scheduled
        exampleSession = none :=
  ⟨fun _ _ _ => rfl, by decide, rfl⟩

/-- C4 counterexample: with stored signature `"old"` differing from the
current one, `_check_and_handle_config_change` updates the in-memory
signature but the durable store — written by the save inside
`clear_all_session_timers`, which runs before the signature update — still
holds `"old"`: the new signature is not persisted by this call. -/
theorem C4_counterexample :
    (check_and_handle_config_change exampleCfg
        oldSigState).st.mem.timing_config_signature
      = get_timing_config_signature exampleCfg
    ∧ Option.map (fun b => b.timing_config_signature)
        (check_and_handle_config_change exampleCfg oldSigState).st.durable
      = some "old"
    ∧ get_timing_config_signature exampleCfg ≠ "old" :=
  ⟨by decide, by decide, by decide⟩

/-- C4 (amended): on each cycle the current signature is compared with the
stored one. Empty stored signature: record and persist the current
signature, no timer cleared. Differing signatures: `clear_all_session_timers`
runs exactly once (wiping both timer maps) and the new signature is recorded
in memory only — the durable store still holds the old signature, since the
only save of this branch happens inside the clearing, before the update.
Equal signatures: nothing changes. -/
theorem C4_config_change (cfg : TimingConfig) (st : SysState) :
    (st.mem.timing_config_signature = "" →
      (check_and_handle_config_change cfg st).clearCalls = 0
      ∧ (check_and_handle_config_change cfg st).st.mem.session_next_fire_times
          = st.mem.session_next_fire_times
      ∧ (check_and_handle_config_change cfg st).st.mem.session_sleep_remaining
          = st.mem.session_sleep_remaining
      ∧ (check_and_handle_config_change cfg st).st.mem.timing_config_signature
          = get_timing_config_signature cfg
      ∧ (check_and_handle_config_change cfg st).st.durable
          = some (to_dict (check_and_handle_config_change cfg st).st.mem))
    ∧ (st.mem.timing_config_signature ≠ "" →
      get_timing_config_signature cfg ≠ st.mem.timing_config_signature →
      (check_and_handle_config_change cfg st).clearCalls = 1
      ∧ (check_and_handle_config_change cfg st).st.mem.session_next_fire_times
          = SessionMap.empty
      ∧ (check_and_handle_config_change cfg st).st.mem.session_sleep_remaining
          = SessionMap.empty
      ∧ (check_and_handle_config_change cfg st).st.mem.timing_config_signature
          = get_timing_config_signature cfg
      ∧ Option.map (fun b => b.timing_config_signature)
          (check_and_handle_config_change cfg st).st.durable
          = some st.mem.timing_config_signature)
    ∧ (st.mem.timing_config_signature ≠ "" →
      get_timing_config_signature cfg = st.mem.timing_config_signature →
      (check_and_handle_config_change cfg st).st = st
      ∧ (check_and_handle_config_change cfg st).clearCalls = 0) := by
  refine ⟨?_, ?_, ?_⟩
  · intro h
    simp [check_and_handle_config_change, h, save_persistent_data]
  · intro h1 h2
    simp [check_and_handle_config_change, h1, h2, clear_all_session_timers,
      save_persistent_data, to_dict]
  · intro h1 h2
    simp [check_and_handle_config_change, h1, h2]

/-- C4 witness: the three branches at concrete states — fresh store (first
run), stored `"old"` signature (mismatch), stored current signature
(match). -/
theorem C4_config_change_witness :
    (check_and_handle_config_change exampleCfg initialState).clearCalls = 0
    ∧ (check_and_handle_config_change exampleCfg oldSigState).clearCalls = 1
    ∧ (check_and_handle_config_change exampleCfg matchSigState).clearCalls
        = 0 :=
  ⟨((C4_config_change exampleCfg initialState).1 rfl).1,
   ((C4_config_change exampleCfg oldSigState).2.1 (by decide) (by decide)).1,
   ((C4_config_change exampleCfg matchSigState).2.2 (by decide) rfl).2⟩

/-- C2: for every session in the configured target list, with regular next
time R = now + interval and pending ad-hoc tasks whose stored fire-time
strings parse to A1..An (unparseable entries ignored by the `filterMap`),
`refresh_session_timer` sets the session's next fire time to
min(R, A1..An) — the fold reduces to R when no ad-hoc time parses. -/
theorem C2_refresh_earliest_wins (cfg : TimingConfig) (rand : Nat → Nat → Nat)
    (now : Int) (st : SysState) (session : String)
    (h : session ∈ cfg.sessions) :
    (refresh_session_timer cfg rand now st session).mem.session_next_fire_times
        session
      = some ((((st.mem.session_ai_scheduled session).getD []).filterMap
          (fun t => t.fire_time)).foldl min
            (calculate_next_fire_time cfg rand now)) :=
  refresh_fire_self cfg rand now st session h

/-- C2 witness: in `dueState` the session has one ad-hoc task at 90 s, far
earlier than the regular time 0 + 600 min; the refreshed timer is 90. -/
theorem C2_refresh_earliest_wins_witness :
    exampleSession ∈ exampleCfg.sessions
    ∧ (refresh_session_timer exampleCfg exampleRand 0 dueState
        exampleSession).mem.session_next_fire_times exampleSession
        = some 90 := by
  refine ⟨by decide, ?_⟩
  rw [C2_refresh_earliest_wins exampleCfg exampleRand 0 dueState
    exampleSession (by decide)]
  decide

theorem process_due_session_fail_eq (cfg : TimingConfig)
    (rand : Nat → Nat → Nat) (now : Int) (termFlag : Nat → Bool)
    (st : SysState) (session : String) (ft : Int)
    (hft : st.mem.session_next_fire_times session = some ft)
    (hdue : ft ≤ now) :
    process_due_session cfg rand now (fun _ => false) termFlag st session
      = set_session_next_fire_time
          { st with mem :=
            { st.mem with session_consecutive_failures := st.mem.session_consecutive_failures.set session (some ((st.mem.session_consecutive_failures session).getD 0 + 1)) } }
          session (calculate_next_fire_time cfg rand now) := by
  unfold process_due_session
  rw [hft]
  dsimp only
  rw [if_pos hdue]
  rfl

theorem process_due_session_succ_eq (cfg : TimingConfig)
    (rand : Nat → Nat → Nat) (now : Int) (termFlag : Nat → Bool)
    (st : SysState) (session : String) (ft : Int) (due : AdHocTask)
    (hft : st.mem.session_next_fire_times session = some ft)
    (hdue : ft ≤ now)
    (hfind : find_due_ai_task ((st.mem.session_ai_scheduled session).getD [])
        now = some due) :
    process_due_session cfg rand now (fun _ => true) termFlag st session
      = refresh_session_timer cfg rand now
          (save_persistent_data
            { st with mem :=
              { st.mem with
                session_consecutive_failures := st.mem.session_consecutive_failures.set session none
                session_ai_scheduled := st.mem.session_ai_scheduled.set session (some (remove_due_task ((st.mem.session_ai_scheduled session).getD []) due)) } })
          session := by
  unfold process_due_session
  rw [hft]
  dsimp only
  rw [if_pos hdue, hfind]
  rfl

/-- C5: when a due fire corresponds to a pending ad-hoc task (found by
`find_due_ai_task`, carrying a task id): a successful send removes exactly
the tasks with that id from the session's list; a failed send leaves the
list untouched and resets the session's next fire time to a freshly computed
regular-interval time instead of the task's fire time. -/
theorem C5_due_task_fate (cfg : TimingConfig) (rand : Nat → Nat → Nat)
    (now : Int) (termFlag : Nat → Bool) (st : SysState) (session : String)
    (ft : Int) (due : AdHocTask) (id : String)
    (hft : st.mem.session_next_fire_times session = some ft)
    (hdue : ft ≤ now)
    (hfind : find_due_ai_task ((st.mem.session_ai_scheduled session).getD [])
        now = some due)
    (hid : due.task_id = some id) :
    ((process_due_session cfg rand now (fun _ => true) termFlag st
        session).mem.session_ai_scheduled session
      = some (((st.mem.session_ai_scheduled session).getD []).filter
          (fun t => ¬ t.task_id = some id)))
    ∧ ((process_due_session cfg rand now (fun _ => false) termFlag st
        session).mem.session_ai_scheduled session
      = st.mem.session_ai_scheduled session)
    ∧ ((process_due_session cfg rand now (fun _ => false) termFlag st
        session).mem.session_next_fire_times session
      = some (calculate_next_fire_time cfg rand now)) := by
  refine ⟨?_, ?_, ?_⟩
  · rw [process_due_session_succ_eq cfg rand now termFlag st session ft due
      hft hdue hfind]
    rw [refresh_ai]
    show (st.mem.session_ai_scheduled.set session
      (some (remove_due_task ((st.mem.session_ai_scheduled session).getD [])
        due))) session = _
    rw [SessionMap.get_set_self]
    unfold remove_due_task
    rw [hid]
  · rw [process_due_session_fail_eq cfg rand now termFlag st session ft
      hft hdue]
    rfl
  · rw [process_due_session_fail_eq cfg rand now termFlag st session ft
      hft hdue]
    exact set_fire_self _ _ _

/-- C5 witness: in `dueState` at `now = 100` the stored fire time 100 is due
and `dueTask` (id `"t1"`, due at 90) fires; a successful send empties the
list, a failed send keeps it and resets the timer to 100 + 600 min. -/
theorem C5_due_task_fate_witness :
    dueState.mem.session_next_fire_times exampleSession = some 100
    ∧ (100 : Int) ≤ 100
    ∧ find_due_ai_task
        ((dueState.mem.session_ai_scheduled exampleSession).getD []) 100
        = some dueTask
    ∧ dueTask.task_id = some "t1"
    ∧ (process_due_session exampleCfg exampleRand 100 (fun _ => true)
        (fun _ => false) dueState exampleSession).mem.session_ai_scheduled
        exampleSession = some []
    ∧ (process_due_session exampleCfg exampleRand 100 (fun _ => false)
        (fun _ => false) dueState exampleSession).mem.session_next_fire_times
        exampleSession = some 36100 := by
  refine ⟨by decide, by decide, by decide, rfl, ?_, ?_⟩
  · rw [(C5_due_task_fate exampleCfg exampleRand 100 (fun _ => false)
      dueState exampleSession 100 dueTask "t1" (by decide) (by decide)
      (by decide) rfl).1]
    decide
  · rw [(C5_due_task_fate exampleCfg exampleRand 100 (fun _ => false)
      dueState exampleSession 100 dueTask "t1" (by decide) (by decide)
      (by decide) rfl).2.2]
    decide

theorem exit_step_sleep (cfg : TimingConfig) (rand : Nat → Nat → Nat)
    (now : Int) (st : SysState) (s : String) :
    (handle_exit_sleep_session cfg rand now st s).mem.session_sleep_remaining
      = st.mem.session_sleep_remaining := by
  unfold handle_exit_sleep_session
  split
  · exact refresh_sleep _ _ _ _ _
  · split
    · rfl
    · split
      · split <;> rfl
      · rfl

theorem exit_step_fire_other (cfg : TimingConfig) (rand : Nat → Nat → Nat)
    (now : Int) (st : SysState) (s s' : String) (h : s' ≠ s) :
    (handle_exit_sleep_session cfg rand now st
        s).mem.session_next_fire_times s'
      = st.mem.session_next_fire_times s' := by
  unfold handle_exit_sleep_session
  split
  · exact refresh_fire_other _ _ _ _ _ _ h
  · split
    · rfl
    · split
      · split <;> exact set_fire_other _ _ _ _ h
      · exact set_fire_other _ _ _ _ h

theorem exit_step_delayed (cfg : TimingConfig) (rand : Nat → Nat → Nat)
    (now : Int) (st : SysState) (s : String)
    (h1 : cfg.send_on_wake_enabled = true)
    (h2 : ¬ cfg.wake_send_mode = "immediate") :
    (handle_exit_sleep_session cfg rand now st s).mem.session_next_fire_times
        s
      = some (delayed_wake_fire cfg rand now
          (st.mem.session_sleep_remaining s)) := by
  unfold handle_exit_sleep_session
  rw [if_neg (by simp [h1])]
  rw [if_neg h2]
  cases hrem : st.mem.session_sleep_remaining s with
  | none =>
    dsimp only
    rw [set_fire_self]
    rfl
  | some r =>
    dsimp only
    by_cases h0 : 0 < r
    · rw [if_pos h0, set_fire_self]
      simp [delayed_wake_fire, h0]
    · rw [if_neg h0, set_fire_self]
      simp [delayed_wake_fire, h0]

theorem exit_fold_not_mem (cfg : TimingConfig) (rand : Nat → Nat → Nat)
    (now : Int) (sess : String) :
    ∀ (l : List String) (st : SysState), sess ∉ l →
      (l.foldl (handle_exit_sleep_session cfg rand now)
          st).mem.session_next_fire_times sess
        = st.mem.session_next_fire_times sess := by
  intro l
  induction l with
  | nil => intro st _; rfl
  | cons a l ih =>
    intro st h
    rw [List.foldl_cons]
    have hne : sess ≠ a := fun he => h (he ▸ List.mem_cons_self a l)
    have hl : sess ∉ l := fun hm => h (List.mem_cons_of_mem a hm)
    rw [ih _ hl, exit_step_fire_other _ _ _ _ _ _ hne]

theorem exit_fold_delayed (cfg : TimingConfig) (rand : Nat → Nat → Nat)
    (now : Int) (sess : String)
    (h1 : cfg.send_on_wake_enabled = true)
    (h2 : ¬ cfg.wake_send_mode = "immediate") :
    ∀ (l : List String) (st : SysState), sess ∈ l →
      (l.foldl (handle_exit_sleep_session cfg rand now)
          st).mem.session_next_fire_times sess
        = some (delayed_wake_fire cfg rand now
            (st.mem.session_sleep_remaining sess)) := by
  intro l
  induction l with
  | nil => intro st h; cases h
  | cons a l ih =>
    intro st h
    rw [List.foldl_cons]
    by_cases hmem : sess ∈ l
    · rw [ih _ hmem, exit_step_sleep]
    · have ha : sess = a := by
        rcases List.mem_cons.mp h with h' | h'
        · exact h'
        · exact absurd h' hmem
      subst ha
      rw [exit_fold_not_mem cfg rand now sess l _ hmem]
      exact exit_step_delayed cfg rand now st sess h1 h2

/-- C7: after `handle_exit_sleep` the sleep-remaining map is empty for every
session regardless of wake mode; and under the delayed wake mode, every
target session with a recorded positive remaining value r gets next fire
time `wake_time + r`, while a session with no recorded value gets a freshly
recomputed regular-interval time. -/
theorem C7_exit_sleep_delayed (cfg : TimingConfig) (rand : Nat → Nat → Nat)
    (now : Int) (st : SysState) (sess : String) :
    (handle_exit_sleep cfg rand now st).mem.session_sleep_remaining sess
        = none
    ∧ (cfg.send_on_wake_enabled = true → cfg.wake_send_mode = "delayed" →
        sess ∈ cfg.sessions →
        (∀ r : Int, st.mem.session_sleep_remaining sess = some r → 0 < r →
            (handle_exit_sleep cfg rand now
                st).mem.session_next_fire_times sess = some (now + r))
        ∧ (st.mem.session_sleep_remaining sess = none →
            (handle_exit_sleep cfg rand now
                st).mem.session_next_fire_times sess
              = some (calculate_next_fire_time cfg rand now))) := by
  constructor
  · rfl
  · intro h1 h2 hmem
    have h2' : ¬ cfg.wake_send_mode = "immediate" := by
      rw [h2]; decide
    have hfire : (handle_exit_sleep cfg rand now
        st).mem.session_next_fire_times sess
        = some (delayed_wake_fire cfg rand now
            (st.mem.session_sleep_remaining sess)) :=
      exit_fold_delayed cfg rand now sess h1 h2' cfg.sessions st hmem
    constructor
    · intro r hr h0
      rw [hfire, hr]
      simp [delayed_wake_fire, h0]
    · intro hr
      rw [hfire, hr]
      rfl

/-- C7 witness: waking at 50 under the delayed mode with 120 s recorded for
`exampleSession` restores next fire time 170, and the sleep-remaining map is
cleared. -/
theorem C7_exit_sleep_delayed_witness :
    exampleCfgDelayed.send_on_wake_enabled = true
    ∧ exampleCfgDelayed.wake_send_mode = "delayed"
    ∧ exampleSession ∈ exampleCfgDelayed.sessions
    ∧ sleptState.mem.session_sleep_remaining exampleSession = some 120
    ∧ (0 : Int) < 120
    ∧ (handle_exit_sleep exampleCfgDelayed exampleRand 50
        sleptState).mem.session_next_fire_times exampleSession = some 170
    ∧ (handle_exit_sleep exampleCfgDelayed exampleRand 50
        sleptState).mem.session_sleep_remaining exampleSession = none := by
  refine ⟨rfl, rfl, by decide, by decide, by decide, ?_, ?_⟩
  · have h := ((C7_exit_sleep_delayed exampleCfgDelayed exampleRand 50
      sleptState exampleSession).2 rfl rfl (by decide)).1 120 (by decide)
      (by decide)
    rw [h]
    decide
  · exact (C7_exit_sleep_delayed exampleCfgDelayed exampleRand 50
      sleptState exampleSession).1

end ProactiveReply
